import Mathlib

/-!
Shallow embedding of the front end of the interview portal (App.tsx,
pages.tsx, hooks.ts): the interview session controllers, the media capture
operations, the session bootstrap call and the results rendering, together
with theorems about the protocol and resource properties stated for them.

JS strings are modelled as String where only equality matters, and as
List Char where prefix structure matters (URLs); fields that can be
undefined are Options. Asynchronous effects are explicit: a handler returns
its new state together with the effects it performs, and the outcome of an
awaited operation (getUserMedia, fetch) is an argument of the function that
awaits it. Messages are handled at event granularity, in arrival order.
-/

/-- The empty JS string literal. -/
def emptyText : String := ""

/-- JS string interpolation of an undefined number. -/
def undefinedText : String := "undefined"

/-- The audio_end control message type. -/
def audioEndType : String := "audio_end"

/-- Greeting text set by the pages.tsx handler (the source literal has an
apostrophe between Let and s, transliterated here). -/
def welcomeTextPages : String := "Welcome! Lets begin the interview."

/-- Greeting text set by the hooks.ts handler (same transliteration). -/
def welcomeTextHooks : String := "Welcome! Lets begin."

/-- Initial question text of the interview pages. -/
def waitingText : String := "Waiting for question..."

/-- JS v or-else d for an optional number: undefined and 0 are falsy. -/
def orNum (v : Option Nat) (d : Nat) : Nat :=
  match v with
  | none => d
  | some n => if n = 0 then d else n

/-- JS v or-else d for an optional string: undefined and the empty string are
falsy. -/
def orStr (v : Option String) (d : String) : String :=
  match v with
  | none => d
  | some s => if s = emptyText then d else s

/-- JS String.prototype.trim, modelled structurally on the character list so
that it evaluates by reduction: whitespace is stripped from both ends. -/
def jsTrim (s : String) : String :=
  String.mk (((s.data.dropWhile Char.isWhitespace).reverse.dropWhile
    Char.isWhitespace).reverse)

/-- JS truthiness of an optional number. -/
def truthyNum (v : Option Nat) : Bool :=
  match v with
  | none => false
  | some n => decide (n ≠ 0)

/-- Characters of the http scheme test used by getFullVideoUrl. -/
def httpPre : List Char := "http://".data

/-- Characters of the https scheme test used by getFullVideoUrl. -/
def httpsPre : List Char := "https://".data

/-- getFullVideoUrl from pages.tsx and hooks.ts: an absolute http(s) URL is
returned unchanged, any other path is appended to the origin of the
configured API base URL, passed here as baseUrl. -/
def getFullVideoUrl (baseUrl relativePath : List Char) : List Char :=
  if httpPre.isPrefixOf relativePath || httpsPre.isPrefixOf relativePath then
    relativePath
  else
    baseUrl ++ relativePath

/-- A parsed inbound WebSocket JSON message: the type discriminator plus the
optional fields the handlers read. An absent field is none, or the empty list
for video_url. -/
structure RawMsg where
  type : String
  video_url : List Char := []
  question_index : Option Nat := none
  question_text : Option String := none
  question_number : Option Nat := none
  total_questions : Option Nat := none
  text : Option String := none
  message : Option String := none
deriving DecidableEq

/-- Observable media capture effects of a startRecording call. -/
inductive MediaAction where
  | streamAcquired
  | createMediaRecorder
  | recorderStart
deriving DecidableEq

/-- How a transport send is ordered relative to the code around it. -/
inductive SendMech where
  | sync
  | afterDelayMs (ms : Nat)
  | afterAwait
deriving DecidableEq

/-- An outgoing transport message. -/
inductive Send where
  | binaryAudio
  | control (msgType : String)
deriving DecidableEq

/-- Whether a scheduled send is the audio_end control message. -/
def isAudioEnd (p : Send × SendMech) : Bool :=
  decide (p.1 = Send.control audioEndType)

/-- The mechanism with which the audio_end control message is scheduled, if it
is scheduled at all. -/
def audioEndMech (sends : List (Send × SendMech)) : Option SendMech :=
  (sends.find? isAudioEnd).map (fun p => p.2)

namespace Pages

/-- Display state of the pages.tsx InterviewPage. -/
structure State where
  currentQuestion : Nat := 1
  totalQuestions : Nat := 5
  questionText : String := waitingText
  transcription : String := emptyText
  isRecording : Bool := false
  error : String := emptyText
  aiVideoUrl : List Char := []
deriving DecidableEq

/-- Fallback question label built by string interpolation from the index. -/
def questionFallback (qi : Option Nat) : String :=
  match qi with
  | none => "Question " ++ undefinedText
  | some n => "Question " ++ toString n

/-- socket.onmessage of the pages.tsx InterviewPage: the updated display state
plus, for a results message, the payload passed to onComplete. Unknown types
and parse failures leave the state unchanged. -/
def onMessage (baseUrl : List Char) (s : State) (m : RawMsg) : State × Option RawMsg :=
  if m.type = "greeting_video" then
    ({ s with aiVideoUrl := getFullVideoUrl baseUrl m.video_url,
              questionText := welcomeTextPages }, none)
  else if m.type = "question_video" then
    ({ s with aiVideoUrl := getFullVideoUrl baseUrl m.video_url,
              currentQuestion := orNum m.question_index 1,
              questionText := orStr m.question_text (questionFallback m.question_index),
              transcription := emptyText }, none)
  else if m.type = "transcription_partial" then
    ({ s with transcription := orStr m.text emptyText }, none)
  else if m.type = "results" then
    (s, some m)
  else if m.type = "error" then
    ({ s with error := orStr m.message "Server error" }, none)
  else
    (s, none)

/-- startRecording of pages.tsx: there is no listening gate; when getUserMedia
resolves, a fresh stream is acquired and a fresh MediaRecorder is stored and
started; on rejection the error is recorded. -/
def startRecording (s : State) (mediaOk : Bool) : State × List MediaAction :=
  if mediaOk then
    ({ s with isRecording := true },
     [MediaAction.streamAcquired, MediaAction.createMediaRecorder,
      MediaAction.recorderStart])
  else
    ({ s with error := "Could not start recording" }, [])

/-- mediaRecorder.onstop of pages.tsx: when the socket is open the single Blob
is sent synchronously; no audio_end control message is sent on any path. -/
def onStopSends (socketOpen : Bool) : List (Send × SendMech) :=
  if socketOpen then [(Send.binaryAudio, SendMech.sync)] else []

end Pages

namespace AppMain

/-- The App.tsx page phases. -/
inductive Phase where
  | setup
  | permission
  | interview
  | results
deriving DecidableEq

/-- App.tsx state: the phase, the mounted InterviewPage state and the stored
final results payload. -/
structure State where
  phase : Phase := Phase.setup
  page : Pages.State := {}
  results : Option RawMsg := none
deriving DecidableEq

/-- One inbound socket message at App level: only a mounted InterviewPage
handles messages; a results payload triggers handleInterviewComplete, which
stores the payload and moves to the results phase, unmounting the page and
closing its socket. In any other phase no handler is mounted and the message
is dropped. -/
def step (baseUrl : List Char) (s : State) (m : RawMsg) : State :=
  if s.phase = Phase.interview then
    match Pages.onMessage baseUrl s.page m with
    | (s1, some r) => { s with phase := Phase.results, results := some r, page := s1 }
    | (s1, none) => { s with page := s1 }
  else s

/-- Handling a list of inbound messages in arrival order. -/
def run (baseUrl : List Char) (s : State) (ms : List RawMsg) : State :=
  ms.foldl (step baseUrl) s

end AppMain

namespace Hooks

/-- Display state of the hooks.ts InterviewPage, the draft with the
isInputAllowed gate. currentQuestion and questionText are set from message
fields without fallbacks, so they can become undefined. -/
structure State where
  currentQuestion : Option Nat := some 1
  questionText : Option String := some waitingText
  transcription : String := emptyText
  isRecording : Bool := false
  isInputAllowed : Bool := false
  error : String := emptyText
  aiVideoUrl : List Char := []
deriving DecidableEq

/-- socket.onmessage of the hooks.ts InterviewPage: a question_video revokes
the input permission and stops an in-progress recording; only an explicit
start_listening message grants the permission. -/
def onMessage (baseUrl : List Char) (s : State) (m : RawMsg) : State × Option RawMsg :=
  if m.type = "greeting_video" then
    ({ s with aiVideoUrl := getFullVideoUrl baseUrl m.video_url,
              questionText := some welcomeTextHooks }, none)
  else if m.type = "question_video" then
    ({ s with aiVideoUrl := getFullVideoUrl baseUrl m.video_url,
              currentQuestion := m.question_index,
              questionText := m.question_text,
              isInputAllowed := false,
              isRecording := false }, none)
  else if m.type = "start_listening" then
    ({ s with aiVideoUrl := if m.video_url.isEmpty then s.aiVideoUrl
                            else getFullVideoUrl baseUrl m.video_url,
              isInputAllowed := true }, none)
  else if m.type = "results" then
    (s, some m)
  else
    (s, none)

/-- startRecording of the hooks.ts InterviewPage: returns immediately while
input is not allowed; otherwise acquires a fresh stream and stores and starts
a fresh MediaRecorder, whether or not one is already recording. -/
def startRecording (s : State) (mediaOk : Bool) : State × List MediaAction :=
  if !s.isInputAllowed then (s, [])
  else if mediaOk then
    ({ s with isRecording := true },
     [MediaAction.streamAcquired, MediaAction.createMediaRecorder,
      MediaAction.recorderStart])
  else
    ({ s with error := "Could not start recording" }, [])

/-- mediaRecorder.onstop of hooks.ts: when the socket is open the Blob is sent
synchronously and the audio_end control message is scheduled on a 100 ms
timeout. -/
def onStopSends (socketOpen : Bool) : List (Send × SendMech) :=
  if socketOpen then
    [(Send.binaryAudio, SendMech.sync),
     (Send.control audioEndType, SendMech.afterDelayMs 100)]
  else []

end Hooks

namespace HooksV2

/-- Display state of the second InterviewPage in hooks.ts, the draft that
fetches results over HTTP: the transcription and the question counters are
set from message fields directly, so they can become undefined. -/
structure State where
  videoUrl : List Char := []
  transcription : Option String := some emptyText
  evaluation : Option RawMsg := none
  isListening : Bool := false
  currentQuestion : Option Nat := some 0
  totalQuestions : Option Nat := some 0
deriving DecidableEq

/-- socket.onmessage of the second hooks.ts InterviewPage: greeting and
question videos clear the evaluation and transcription display state, then
conditionally update the question counters; the returned flag records a
results message triggering onComplete. -/
def onMessage (s : State) (m : RawMsg) : State × Bool :=
  if m.type = "greeting_video" ∨ m.type = "question_video" then
    (if truthyNum m.question_number then
       { s with videoUrl := m.video_url, evaluation := none,
                transcription := some emptyText, isListening := false,
                currentQuestion := m.question_number,
                totalQuestions := m.total_questions }
     else
       { s with videoUrl := m.video_url, evaluation := none,
                transcription := some emptyText, isListening := false }, false)
  else if m.type = "transcription_partial" then
    ({ s with transcription := m.text }, false)
  else if m.type = "evaluation" then
    ({ s with evaluation := some m }, false)
  else if m.type = "results" then
    (s, true)
  else
    (s, false)

end HooksV2

namespace Media

/-- Which of the InterviewPage device streams have live tracks: the camera
preview stream acquired by setupUserVideo and the microphone stream acquired
by startRecording. -/
structure Tracks where
  cameraLive : Bool := false
  micLive : Bool := false
deriving DecidableEq

/-- Number of live tracks. -/
def liveCount (t : Tracks) : Nat :=
  (if t.cameraLive then 1 else 0) + (if t.micLive then 1 else 0)

/-- setupUserVideo acquires the camera preview stream. -/
def setupUserVideo (t : Tracks) : Tracks := { t with cameraLive := true }

/-- A successful startRecording acquires the microphone stream. -/
def startRecordingMic (t : Tracks) : Tracks := { t with micLive := true }

/-- mediaRecorder.onstop stops the recording stream tracks; it runs only after
mediaRecorder.stop() is called. -/
def onStopMic (t : Tracks) : Tracks := { t with micLive := false }

/-- The unmount cleanups of the pages.tsx InterviewPage: the video effect
stops the userStream tracks and the socket effect closes the socket; no
cleanup calls mediaRecorder.stop() or touches the recording stream. -/
def unmountCleanup (t : Tracks) : Tracks := { t with cameraLive := false }

end Media

namespace Setup

/-- SetupPage form state (pages.tsx). -/
structure State where
  jobDesc : String := emptyText
  name : String := emptyText
  duration : Nat := 5
  loading : Bool := false
  error : String := emptyText
deriving DecidableEq

/-- Body of a successful setup response. -/
structure SetupResponse where
  session_id : String
  ws_url : String
deriving DecidableEq

/-- Outcome of the awaited fetch of the setup call. -/
inductive FetchOutcome where
  | ok (data : SetupResponse)
  | httpError
  | networkError (msg : String)
deriving DecidableEq

/-- handleStart of SetupPage (pages.tsx): validates the trimmed fields before
the call. The middle component counts the fetch requests issued by this
invocation and the last is the payload handed to onStart. A response that is
not ok raises an error that is caught and shown inline; no path retries. -/
def handleStart (s : State) (outcome : FetchOutcome) :
    State × Nat × Option SetupResponse :=
  if jsTrim s.jobDesc = emptyText ∨ jsTrim s.name = emptyText then
    ({ s with error := "Please fill in all fields" }, 0, none)
  else
    match outcome with
    | FetchOutcome.ok d =>
        ({ s with loading := false, error := emptyText }, 1, some d)
    | FetchOutcome.httpError =>
        ({ s with loading := false, error := "Failed to start interview" }, 1, none)
    | FetchOutcome.networkError msg =>
        ({ s with loading := false, error := msg }, 1, none)

end Setup

namespace ResultsV

/-- One entry of results.evaluations as read by ResultsPage (pages.tsx). -/
structure EvalItem where
  marks : Option ℚ := none
  feedback : String := emptyText
deriving DecidableEq

/-- The results object as read by ResultsPage. -/
structure ResultsData where
  evaluations : Option (List EvalItem) := none
deriving DecidableEq

/-- A JS arithmetic result: a finite number, NaN or a signed infinity. -/
inductive JNum where
  | num (q : ℚ)
  | nan
  | inf
  | negInf
deriving DecidableEq

/-- JS division: division by zero is NaN for a zero numerator and a signed
infinity otherwise. -/
def jsDiv (a b : ℚ) : JNum :=
  if b = 0 then
    if a = 0 then JNum.nan else if 0 < a then JNum.inf else JNum.negInf
  else JNum.num (a / b)

/-- The no-results guard at the top of ResultsPage. -/
def noResults (r : Option ResultsData) : Bool :=
  match r with
  | none => true
  | some d => d.evaluations.isNone

/-- totalScore: reduce over the evaluations of marks with a falsy fallback
to 0. -/
def totalScore (items : List EvalItem) : ℚ :=
  items.foldl (fun sum it => sum + it.marks.getD 0) 0

/-- avgScore: totalScore divided by the length of evaluations. -/
def avgScore (items : List EvalItem) : JNum :=
  jsDiv (totalScore items) (items.length : ℚ)

end ResultsV

/-- Stale answer text used in concrete runs. -/
def staleText : String := "my previous answer"

/-- Concrete pages state with the displayed question index at 3. -/
def c2State : Pages.State := { currentQuestion := 3 }

/-- Concrete regressive question message with index 1. -/
def c2Msg : RawMsg := { type := "question_video", question_index := some 1 }

/-- Concrete app state in the interview phase. -/
def c3S : AppMain.State := { phase := AppMain.Phase.interview }

/-- Concrete results message. -/
def c3M : RawMsg := { type := "results" }

/-- Concrete question message arriving after the results message. -/
def c3Q : RawMsg := { type := "question_video", question_index := some 2 }

/-- Concrete transcription message arriving after the results message. -/
def c3T : RawMsg := { type := "transcription_partial", text := some staleText }

/-- Concrete start_listening message. -/
def c4Msg : RawMsg := { type := "start_listening" }

/-- Concrete hooks state in which input is not allowed. -/
def c4HState : Hooks.State := {}

/-- Concrete question message used for the reset checks. -/
def c6Msg : RawMsg := { type := "question_video", question_index := some 2 }

/-- Concrete evaluation message held as stale feedback. -/
def c6EvalMsg : RawMsg := { type := "evaluation" }

/-- Concrete pages state holding a stale transcription. -/
def c6PState : Pages.State := { transcription := staleText }

/-- Concrete second-draft state holding stale transcription and feedback. -/
def c6VState : HooksV2.State :=
  { transcription := some staleText, evaluation := some c6EvalMsg }

/-- Concrete hooks state that is already recording with input allowed. -/
def c7State : Hooks.State := { isRecording := true, isInputAllowed := true }

/-- Concrete setup state whose job description is blank after trimming. -/
def c8Empty : Setup.State := { jobDesc := "   ", name := "Bob" }

/-- Concrete setup state with both fields filled. -/
def c8Full : Setup.State := { jobDesc := "Senior engineer role", name := "Bob" }

/-- Concrete API origin. -/
def apiBase : List Char := "http://localhost:8000".data

/-- Concrete absolute video URL. -/
def absUrl : List Char := "https://cdn.example.com/v/q1.mp4".data

/-- Concrete relative video path. -/
def relUrl : List Char := "/videos/q1.mp4".data

/-- A prefix of a list is a prefix of that list extended on the right. -/
theorem isPrefixOf_append_right {p b : List Char} (x : List Char)
    (h : p.isPrefixOf b = true) : p.isPrefixOf (b ++ x) = true := by
  rw [ List.isPrefixOf_iff_prefix] at h ⊢
  exact h.trans ( List.prefix_append b x)

/-- After the results phase is reached, an inbound message is dropped. -/
theorem appStep_results_drop (baseUrl : List Char) (t : AppMain.State) (m : RawMsg)
    (h : t.phase = AppMain.Phase.results) : AppMain.step baseUrl t m = t := by
  unfold AppMain.step
  rw [h]
  rfl

/-- Folding messages from a results-phase state changes nothing. -/
theorem appRun_results_drop (baseUrl : List Char) :
    ∀ (ms : List RawMsg) (t : AppMain.State), t.phase = AppMain.Phase.results →
      AppMain.run baseUrl t ms = t := by
  intro ms
  induction ms with
  | nil => intro t _; rfl
  | cons m ms ih =>
      intro t h
      show AppMain.run baseUrl (AppMain.step baseUrl t m) ms = t
      rw [appStep_results_drop baseUrl t m h]
      exact ih t h

/-- C1 counterexample: at the concrete finalization with the socket open, the
pages.tsx controller sends no audio_end control message at all, and the
hooks.ts controller schedules audio_end through a fixed 100 ms delay rather
than through a barrier awaiting the completion of the binary send, refuting
the claim that every capture finalization sends audio_end ordered by such a
barrier. -/
theorem c1_counterexample :
    (Pages.onStopSends true).filter isAudioEnd = [] ∧
    audioEndMech (Hooks.onStopSends true) = some (SendMech.afterDelayMs 100) ∧
    audioEndMech (Hooks.onStopSends true) ≠ some SendMech.afterAwait := by
  decide

/-- C1 amended: when the socket is open, the hooks.ts finalization sends the
binary payload first (index 0) and the audio_end control message second
(index 1), the latter scheduled by a fixed 100 ms timeout and not by an
await barrier; with the socket closed nothing is sent; the pages.tsx
finalization sends only the binary payload and never audio_end. -/
theorem c1_fixed_delay_ordering :
    (Hooks.onStopSends true).findIdx (fun p => decide (p.1 = Send.binaryAudio)) = 0 ∧
    (Hooks.onStopSends true).findIdx isAudioEnd = 1 ∧
    audioEndMech (Hooks.onStopSends true) = some (SendMech.afterDelayMs 100) ∧
    Hooks.onStopSends false = [] ∧
    Pages.onStopSends true = [(Send.binaryAudio, SendMech.sync)] ∧
    (Pages.onStopSends true).filter isAudioEnd = [] ∧
    Pages.onStopSends false = [] := by
  decide

/-- C2 counterexample: with the displayed index at 3, an inbound
question_video carrying index 1 (not greater than 3) is not ignored: the
pages.tsx handler overwrites the displayed index with 1. -/
theorem c2_counterexample :
    c2Msg.question_index = some 1 ∧
    c2State.currentQuestion = 3 ∧
    (Pages.onMessage [] c2State c2Msg).1.currentQuestion = 1 := by
  decide

/-- C2 amended: the pages.tsx handler sets the displayed question index
unconditionally from every question_video message, with the JS falsy
fallback to 1, so an index at or below the current one regresses the display
instead of being ignored. -/
theorem c2_unconditional_index (baseUrl : List Char) (s : Pages.State) (m : RawMsg)
    (hm : m.type = "question_video") :
    (Pages.onMessage baseUrl s m).1.currentQuestion = orNum m.question_index 1 := by
  unfold Pages.onMessage
  rw [hm]
  rfl

/-- C2 amended claim checked at the concrete regression input. -/
theorem c2_unconditional_index_witness :
    (Pages.onMessage [] c2State c2Msg).1.currentQuestion
      = orNum c2Msg.question_index 1 :=
  c2_unconditional_index [] c2State c2Msg rfl

/-- C3: from the interview phase, handling a results message moves the app to
the results phase, and every message handled afterwards, question_video and
transcription_partial included, leaves the state, hence the displayed
question, transcription and phase, unchanged. -/
theorem c3_results_terminal (baseUrl : List Char) (s : AppMain.State) (m : RawMsg)
    (hphase : s.phase = AppMain.Phase.interview) (hm : m.type = "results") :
    (AppMain.step baseUrl s m).phase = AppMain.Phase.results ∧
    ∀ rest, AppMain.run baseUrl (AppMain.step baseUrl s m) rest
      = AppMain.step baseUrl s m := by
  have hstep : (AppMain.step baseUrl s m).phase = AppMain.Phase.results := by
    unfold AppMain.step
    rw [hphase]
    unfold Pages.onMessage
    rw [hm]
    rfl
  exact ⟨hstep, fun rest => appRun_results_drop baseUrl rest _ hstep⟩

/-- C3 checked on a concrete session: after the results message, a further
question_video and transcription_partial change nothing. -/
theorem c3_results_terminal_witness :
    (AppMain.step [] c3S c3M).phase = AppMain.Phase.results ∧
    AppMain.run [] (AppMain.step [] c3S c3M) [c3Q, c3T]
      = AppMain.step [] c3S c3M := by
  have h := c3_results_terminal [] c3S c3M rfl rfl
  exact ⟨h.1, h.2 [c3Q, c3T]⟩

/-- C4 counterexample: the pages.tsx controller has no listening state — its
message handler ignores a start_listening message entirely — yet from that
same initial state, in which input was never permitted, startRecording
acquires a stream, creates and starts a capture object and flips
isRecording, instead of being rejected as a no-op. -/
theorem c4_counterexample :
    (Pages.onMessage [] {} c4Msg).1 = ({} : Pages.State) ∧
    (Pages.startRecording {} true).2 =
      [MediaAction.streamAcquired, MediaAction.createMediaRecorder,
       MediaAction.recorderStart] ∧
    (Pages.startRecording {} true).1.isRecording = true := by
  decide

/-- C4 amended: the hooks.ts controller rejects startRecording as a no-op,
with no state change and no media effect, whenever isInputAllowed is false,
and only a start_listening message grants that permission; the pages.tsx
controller has no such gate. -/
theorem c4_reject_when_not_listening (s : Hooks.State) (mediaOk : Bool)
    (h : s.isInputAllowed = false) :
    Hooks.startRecording s mediaOk = (s, []) ∧
    ∀ (baseUrl : List Char) (t : Hooks.State) (m : RawMsg),
      m.type = "start_listening" →
        (Hooks.onMessage baseUrl t m).1.isInputAllowed = true := by
  constructor
  · unfold Hooks.startRecording
    rw [h]
    rfl
  · intro baseUrl t m hm
    unfold Hooks.onMessage
    rw [hm]
    rfl

/-- C4 amended claim checked at a concrete non-listening state and a concrete
start_listening message. -/
theorem c4_reject_when_not_listening_witness :
    Hooks.startRecording c4HState true = (c4HState, []) ∧
    (Hooks.onMessage [] c4HState c4Msg).1.isInputAllowed = true := by
  have h := c4_reject_when_not_listening c4HState true rfl
  exact ⟨h.1, h.2 [] c4HState c4Msg rfl⟩

/-- C5: evaluation of the pages.tsx track lifecycle at the failing input.
Unmounting the InterviewPage while a recording is in progress stops only the
camera preview stream: the microphone track stays live, so this exit path
leaves one live track rather than zero; the same run with the recording
stopped first releases everything. -/
theorem c5_unmount_leaves_mic_live :
    Media.liveCount
      (Media.unmountCleanup (Media.startRecordingMic (Media.setupUserVideo {}))) = 1 ∧
    (Media.unmountCleanup
      (Media.startRecordingMic (Media.setupUserVideo {}))).micLive = true ∧
    Media.liveCount
      (Media.unmountCleanup
        (Media.onStopMic (Media.startRecordingMic (Media.setupUserVideo {})))) = 0 := by
  decide

/-- C6: every handled question_video message resets the stale display state:
the pages.tsx handler clears the transcription, and the second hooks.ts
handler clears both the transcription and the evaluation feedback, so a
previous answer is never shown against the new question. -/
theorem c6_question_resets_stale_state (baseUrl : List Char) (s : Pages.State)
    (t : HooksV2.State) (m : RawMsg) (hm : m.type = "question_video") :
    (Pages.onMessage baseUrl s m).1.transcription = emptyText ∧
    (HooksV2.onMessage t m).1.transcription = some emptyText ∧
    (HooksV2.onMessage t m).1.evaluation = none := by
  refine ⟨?_, ?_, ?_⟩
  · unfold Pages.onMessage
    rw [hm]
    rfl
  · unfold HooksV2.onMessage
    rw [hm]
    rw [if_pos (Or.inr rfl)]
    split <;> rfl
  · unfold HooksV2.onMessage
    rw [hm]
    rw [if_pos (Or.inr rfl)]
    split <;> rfl

/-- C6 checked at a concrete stale state and question message. -/
theorem c6_question_resets_stale_state_witness :
    (Pages.onMessage [] c6PState c6Msg).1.transcription = emptyText ∧
    (HooksV2.onMessage c6VState c6Msg).1.transcription = some emptyText ∧
    (HooksV2.onMessage c6VState c6Msg).1.evaluation = none :=
  c6_question_resets_stale_state [] c6PState c6VState c6Msg rfl

/-- C7 counterexample: in the hooks.ts controller the already-recording state
with input allowed is reachable by a successful start, and starting again
from it is not a no-op: a second stream is acquired and a second
MediaRecorder is created and started, overwriting the previous capture. -/
theorem c7_counterexample :
    (Hooks.startRecording { isInputAllowed := true } true).1 = c7State ∧
    c7State.isRecording = true ∧
    (Hooks.startRecording c7State true).2 =
      [MediaAction.streamAcquired, MediaAction.createMediaRecorder,
       MediaAction.recorderStart] ∧
    (Hooks.startRecording (Hooks.startRecording c7State true).1 true).2 ≠ [] := by
  decide

/-- C7 amended: startRecording is not idempotent while recording: whenever
input is allowed and the media request succeeds, the call acquires a fresh
stream and creates and starts a fresh MediaRecorder regardless of
isRecording; only the permission flag gates it. -/
theorem c7_start_not_idempotent (s : Hooks.State) (h : s.isInputAllowed = true) :
    (Hooks.startRecording s true).2 =
      [MediaAction.streamAcquired, MediaAction.createMediaRecorder,
       MediaAction.recorderStart] ∧
    (Hooks.startRecording s true).1 = { s with isRecording := true } := by
  unfold Hooks.startRecording
  rw [h]
  exact ⟨rfl, rfl⟩

/-- C7 amended claim checked at the concrete already-recording state. -/
theorem c7_start_not_idempotent_witness :
    (Hooks.startRecording c7State true).2 =
      [MediaAction.streamAcquired, MediaAction.createMediaRecorder,
       MediaAction.recorderStart] ∧
    (Hooks.startRecording c7State true).1 = { c7State with isRecording := true } :=
  c7_start_not_idempotent c7State rfl

/-- C8: handleStart validates the trimmed fields before the call: with either
field blank no request is issued and the inline error is set; otherwise
exactly one request is issued, and a response that is not ok surfaces as the
inline error with no payload handed over and no further request. -/
theorem c8_validation_before_call (s : Setup.State) (o : Setup.FetchOutcome) :
    ((jsTrim s.jobDesc = emptyText ∨ jsTrim s.name = emptyText) →
       Setup.handleStart s o
         = ({ s with error := "Please fill in all fields" }, 0, none)) ∧
    (Setup.handleStart s o).2.1 ≤ 1 ∧
    (¬(jsTrim s.jobDesc = emptyText ∨ jsTrim s.name = emptyText) →
       (Setup.handleStart s o).2.1 = 1 ∧
       (o = Setup.FetchOutcome.httpError →
          (Setup.handleStart s o).1.error = "Failed to start interview" ∧
          (Setup.handleStart s o).2.2 = none)) := by
  refine ⟨fun h => ?_, ?_, fun h => ?_⟩
  · unfold Setup.handleStart
    rw [if_pos h]
  · unfold Setup.handleStart
    split
    · exact Nat.zero_le 1
    · cases o <;> exact Nat.le_refl 1
  · unfold Setup.handleStart
    rw [if_neg h]
    cases o with
    | ok d => exact ⟨rfl, fun hc => Setup.FetchOutcome.noConfusion hc⟩
    | httpError => exact ⟨rfl, fun _ => ⟨rfl, rfl⟩⟩
    | networkError msg => exact ⟨rfl, fun hc => Setup.FetchOutcome.noConfusion hc⟩

/-- C8 checked concretely: a job description that is blank after trimming
blocks the request with the inline error; a filled form with a failing
response surfaces the fetch error with no payload. -/
theorem c8_validation_before_call_witness :
    Setup.handleStart c8Empty Setup.FetchOutcome.httpError
      = ({ c8Empty with error := "Please fill in all fields" }, 0, none) ∧
    (Setup.handleStart c8Full Setup.FetchOutcome.httpError).1.error
      = "Failed to start interview" ∧
    (Setup.handleStart c8Full Setup.FetchOutcome.httpError).2.2 = none := by
  have h1 := (c8_validation_before_call c8Empty Setup.FetchOutcome.httpError).1
  have h2 := (c8_validation_before_call c8Full Setup.FetchOutcome.httpError).2.2
  exact ⟨h1 (Or.inl (by decide)), (h2 (by decide)).2 rfl⟩

/-- C9: the no-results guard rejects a missing results object and a missing
evaluations field and nothing else — a present empty evaluations list passes
it — and the overall score then computed for the empty list divides the zero
total by the zero length, which is NaN, a non-numeric score. -/
theorem c9_empty_evaluations_nan :
    ResultsV.noResults none = true ∧
    (∀ d : ResultsV.ResultsData,
       ResultsV.noResults (some d) = d.evaluations.isNone) ∧
    ResultsV.noResults (some { evaluations := some [] }) = false ∧
    ResultsV.avgScore [] = ResultsV.JNum.nan := by
  refine ⟨rfl, fun d => rfl, rfl, ?_⟩
  decide

/-- C10: getFullVideoUrl is the identity on http and https absolute URLs, and
when the configured base has an http(s) origin it is idempotent on every
input. -/
theorem c10_identity_and_idempotent (base : List Char)
    (hb : (httpPre.isPrefixOf base || httpsPre.isPrefixOf base) = true) :
    (∀ x, (httpPre.isPrefixOf x || httpsPre.isPrefixOf x) = true →
       getFullVideoUrl base x = x) ∧
    (∀ x, getFullVideoUrl base (getFullVideoUrl base x)
       = getFullVideoUrl base x) := by
  have habs : ∀ x, (httpPre.isPrefixOf x || httpsPre.isPrefixOf x) = true →
      getFullVideoUrl base x = x := by
    intro x hx
    unfold getFullVideoUrl
    rw [hx]
    rfl
  refine ⟨habs, fun x => ?_⟩
  by_cases hx : (httpPre.isPrefixOf x || httpsPre.isPrefixOf x) = true
  · rw [habs x hx]
    exact habs x hx
  · have hxf : getFullVideoUrl base x = base ++ x := by
      unfold getFullVideoUrl
      rw [Bool.not_eq_true] at hx
      rw [hx]
      rfl
    have hbx : (httpPre.isPrefixOf (base ++ x)
        || httpsPre.isPrefixOf (base ++ x)) = true := by
      rw [Bool.or_eq_true] at hb ⊢
      rcases hb with h | h
      · exact Or.inl (isPrefixOf_append_right x h)
      · exact Or.inr (isPrefixOf_append_right x h)
    rw [hxf, habs (base ++ x) hbx]

/-- C10 checked concretely: an absolute https URL passes through unchanged and
a relative path is stable under a second application. -/
theorem c10_identity_and_idempotent_witness :
    getFullVideoUrl apiBase absUrl = absUrl ∧
    getFullVideoUrl apiBase (getFullVideoUrl apiBase relUrl)
      = getFullVideoUrl apiBase relUrl := by
  have h := c10_identity_and_idempotent apiBase (by decide)
  exact ⟨h.1 absUrl (by decide), h.2 relUrl⟩
